import Mathlib

/- Shallow embedding of the bgreman/nhl-twitter-bot core: the poll loop in
   src/hockeygamebot/app.py (start_game_loop, end_game_loop, run) and the
   Team model in src/hockeygamebot/models/team.py.  Machine-level details
   that the source delegates to modules outside src/ (the GameState enum,
   livefeed fetching, the preview/live/final dispatch helpers, the
   GameEndOfGameSocials ledger) are modelled from the spec and marked as
   such in their doc comments. -/

set_option autoImplicit false

/-- Errors of the Python runtime that the embedded code can raise. -/
inductive PyErr where
  | TypeError
  | KeyError
  | FeedUnavailableErr
  | FeedMalformedErr
  | RuntimeErr
deriving DecidableEq, Repr

/-- Failure modes of the external feed reader, from the spec's §4.2 contract. -/
inductive FeedError where
  | FeedUnavailable
  | FeedMalformed
deriving DecidableEq, Repr

/-- Converts a feed-reader failure into the Python exception it surfaces as. -/
def FeedError.toPyErr : FeedError → PyErr
  | FeedError.FeedUnavailable => PyErr.FeedUnavailableErr
  | FeedError.FeedMalformed => PyErr.FeedMalformedErr

/-- The lifecycle phases.  Modelled from the spec: the GameState enum lives in
    hockeygamebot/models/gamestate.py, which is not under src/; the spec's
    Phase has exactly Preview, Live, Final and Unknown. -/
inductive GameState where
  | PREVIEW
  | LIVE
  | FINAL
  | UNKNOWN
deriving DecidableEq, Repr

/-- Modelled from the spec: the phase classifier `GameState(game.game_state)`
    used at the top of every loop iteration in app.py.  It must map every
    feed-reported tag to one of the four phases, defaulting to UNKNOWN for any
    unrecognized tag, and never raises (the `else` branch of start_game_loop,
    app.py lines 112-116, is the handler for the UNKNOWN result). -/
def GameState.ofTag (tag : String) : GameState :=
  if tag = "Preview" then GameState.PREVIEW
  else if tag = "Live" then GameState.LIVE
  else if tag = "Final" then GameState.FINAL
  else GameState.UNKNOWN

/- ------------------------------------------------------------------ -/
/- Team model (src/hockeygamebot/models/team.py)                      -/
/- ------------------------------------------------------------------ -/

/-- Looks a key up in a Python dict modelled as an association list. -/
def dict_find (d : List (String × Int)) (k : String) : Option Int :=
  (d.find? (fun p => p.1 == k)).map (fun p => p.2)

/-- Python dict subscript `d[k]`: raises KeyError when the key is missing. -/
def py_getitem (d : List (String × Int)) (k : String) : Except PyErr Int :=
  match dict_find d k with
  | Option.some v => Except.ok v
  | Option.none => Except.error PyErr.KeyError

/-- Python addition of an int and a value that may be None:
    `int + None` raises TypeError. -/
def py_add_int_opt (a : Int) (b : Option Int) : Except PyErr Int :=
  match b with
  | Option.some v => Except.ok (a + v)
  | Option.none => Except.error PyErr.TypeError

/-- The record-derived fields that Team.__init__ computes
    (team.py lines 41-50). -/
structure TeamRecordStats where
  wins : Int
  losses : Int
  ot : Option Int
  points : Int
deriving DecidableEq, Repr

/-- Embeds the record-handling part of Team.__init__ (team.py lines 41-50):
    `self.wins = record["wins"]`, `self.losses = record["losses"]`,
    `try: self.ot = record["ot"] except KeyError: self.ot = None`, and then
    `self.points = (2 * self.wins) + self.ot`.  The later network-backed
    stats lookups are external collaborators and are not part of this
    computation. -/
def team_init_record (record : List (String × Int)) : Except PyErr TeamRecordStats := do
  let wins ← py_getitem record "wins"
  let losses ← py_getitem record "losses"
  let ot : Option Int := dict_find record "ot"
  let points ← py_add_int_opt (2 * wins) ot
  return { wins := wins, losses := losses, ot := ot, points := points }

/-- A Python value as stored in the dynamically-typed `_goalie_pulled` slot. -/
inductive PyVal where
  | bool (b : Bool)
  | pynone
  | int (n : Int)
deriving DecidableEq, Repr

/-- The per-game mutable fields of a Team that goalie_pulled_setter can see
    (team.py lines 29-34). -/
structure TeamLive where
  skaters : Int
  score : Int
  shots : Int
  power_play : Bool
  goalie_pulled : PyVal
  preferred : Bool
deriving DecidableEq, Repr

/-- Embeds Team.goalie_pulled_setter (team.py lines 277-281): remembers the
    old value, overwrites `_goalie_pulled` with the new value, and returns
    `bool(new_value is True and old_value is False)`.  Python `is` against
    the singletons True/False is equality on this value type. -/
def goalie_pulled_setter (t : TeamLive) (new_value : PyVal) : TeamLive × Bool :=
  let old_value := t.goalie_pulled
  ({ t with goalie_pulled := new_value },
   (new_value == PyVal.bool true) && (old_value == PyVal.bool false))

/- ------------------------------------------------------------------ -/
/- Poll loop model (src/hockeygamebot/app.py start_game_loop)         -/
/- ------------------------------------------------------------------ -/

/-- One fetched feed document, carrying the snapshot-derived fields that
    game.update_game copies onto the Game object. -/
structure Snapshot where
  game_state : String
  game_time_countdown : Int
  latest_event_idx : Nat
deriving DecidableEq, Repr

/-- Modelled from the spec: the GameEndOfGameSocials ledger referenced by
    app.py as game.final_socials (its class is not under src/).  It holds the
    per-notification sent flags for the Final-phase socials, the retry
    counter, and the maximum-retries threshold. -/
structure FinalSocials where
  final_score_sent : Bool
  three_stars_sent : Bool
  retry_count : Nat
  retry_max : Nat
deriving DecidableEq, Repr

/-- Modelled from the spec: `game.final_socials.all_social_sent` is true when
    every Final-phase notification's sent flag is true. -/
def FinalSocials.all_social_sent (s : FinalSocials) : Bool :=
  s.final_score_sent && s.three_stars_sent

/-- Modelled from the spec: `game.final_socials.retries_exeeded` (source
    spelling) is true when the retry counter has reached the
    maximum-retries threshold ("retries ≥ max"). -/
def FinalSocials.retries_exeeded (s : FinalSocials) : Bool :=
  s.retry_max ≤ s.retry_count

/-- The Game object fields that start_game_loop reads and writes.  The class
    itself (hockeygamebot/models/game.py) is not under src/; the fields are
    exactly those the loop uses: game_state, game_time_countdown,
    pregametweets["core"], last_event_idx and final_socials. -/
structure GameData where
  game_state : String
  game_time_countdown : Int
  pregametweets_core : Bool
  last_event_idx : Nat
  final_socials : FinalSocials
deriving DecidableEq, Repr

/-- Modelled from the spec: game.update_game(livefeed_resp) replaces the
    snapshot-derived fields of the Game object from the fetched feed document
    (phase tag, countdown, latest event index); it does not touch the
    notification ledgers. -/
def GameData.update_game (g : GameData) (snap : Snapshot) : GameData :=
  { g with
      game_state := snap.game_state,
      game_time_countdown := snap.game_time_countdown,
      last_event_idx := snap.latest_event_idx }

/-- The notification kinds the loop can dispatch. -/
inductive NotifKind where
  | corePreview
  | supplementalPreview
  | liveEvent (idx : Nat)
  | finalScore
  | threeStars
  | nstLinetool
deriving DecidableEq, Repr

/-- Per-dispatch outcomes, from the spec's §4.3 dispatcher contract. -/
inductive DispatchOutcome where
  | Sent
  | AlreadySent
  | Skipped
  | Failed
deriving DecidableEq, Repr

/-- Modelled from the spec: one flag-gated dispatcher call.  A kind whose
    ledger flag is already true is a no-op returning AlreadySent; a
    successful publish returns Sent and sets the flag; a publish failure
    returns Failed and must not set the flag.  Returns the new flag and the
    outcome. -/
def dispatch_flag (sent : Bool) (success : Bool) : Bool × DispatchOutcome :=
  if sent then (sent, DispatchOutcome.AlreadySent)
  else if success then (true, DispatchOutcome.Sent)
  else (false, DispatchOutcome.Failed)

/-- The external-collaborator outcomes one loop iteration can observe: the
    feed reader's result, whether live.live_loop raises, and the publish
    outcomes of the individual dispatcher calls. -/
structure IterEnv where
  fetch : Except FeedError Snapshot
  live_raises : Bool
  preview_core_success : Bool
  preview_others_sleep : Nat
  supplemental_outcome : DispatchOutcome
  final_score_success : Bool
  three_stars_success : Bool
  nst_success : Bool
deriving Repr

/-- The configured sleep intervals (config["script"] keys read by app.py). -/
structure Config where
  pregame_sleep_time : Nat
  live_sleep_time : Nat
  final_sleep_time : Nat
deriving DecidableEq, Repr

/-- The observable result of one execution of the loop body: continue with a
    new Game state, a sleep duration and the dispatch calls performed; exit
    the loop via end_game_loop; or let an uncaught exception propagate out of
    start_game_loop (crashing the process). -/
inductive StepResult where
  | next (g : GameData) (sleep : Nat) (dispatched : List (NotifKind × DispatchOutcome))
  | exitLoop (g : GameData) (dispatched : List (NotifKind × DispatchOutcome))
  | crash (err : PyErr)
deriving DecidableEq, Repr

/-- Modelled from the spec: live.live_loop dispatches one notification per
    new event index, in ascending order, for the indices strictly between the
    last-processed index and the snapshot's latest index. -/
def live_loop_dispatches (g : GameData) (snap : Snapshot) :
    List (NotifKind × DispatchOutcome) :=
  ((List.range (snap.latest_event_idx + 1)).filter
      (fun i => decide (g.last_event_idx < i))).map
    (fun i => (NotifKind.liveEvent i, DispatchOutcome.Sent))

/-- The Preview branch of start_game_loop (app.py lines 44-62).  With the
    countdown still positive, the core preview runs only when the ledger flag
    pregametweets["core"] is false (the dispatch itself is modelled from the
    spec's dispatcher contract), the supplemental previews run via
    preview.game_preview_others which returns the sleep time; past the start
    time the loop re-fetches with no exception handler, so a feed failure
    propagates. -/
def preview_iteration (config : Config) (env : IterEnv) (game : GameData) :
    StepResult :=
  if 0 < game.game_time_countdown then
    if game.pregametweets_core = false then
      StepResult.next
        { game with
            pregametweets_core :=
              (dispatch_flag game.pregametweets_core env.preview_core_success).1 }
        env.preview_others_sleep
        [(NotifKind.corePreview,
            (dispatch_flag game.pregametweets_core env.preview_core_success).2),
         (NotifKind.supplementalPreview, env.supplemental_outcome)]
    else
      StepResult.next game env.preview_others_sleep
        [(NotifKind.supplementalPreview, env.supplemental_outcome)]
  else
    match env.fetch with
    | Except.error e => StepResult.crash e.toPyErr
    | Except.ok snap =>
        StepResult.next (game.update_game snap) config.pregame_sleep_time []

/-- The Live branch of start_game_loop (app.py lines 64-83).  The whole body
    is wrapped in try/except Exception: a failing fetch or a raising
    live_loop is caught and logged, game.update_game is not reached, and the
    loop sleeps for the live interval with the Game state unchanged. -/
def live_iteration (config : Config) (env : IterEnv) (game : GameData) :
    StepResult :=
  match env.fetch with
  | Except.error _ => StepResult.next game config.live_sleep_time []
  | Except.ok snap =>
      if env.live_raises then StepResult.next game config.live_sleep_time []
      else
        StepResult.next (game.update_game snap) config.live_sleep_time
          (live_loop_dispatches game snap)

/-- The ledger state after the Final-phase dispatcher calls
    final.final_score and final.three_stars (modelled from the spec's
    dispatcher contract; the helpers themselves are not under src/). -/
def final_socials_after (env : IterEnv) (s : FinalSocials) : FinalSocials :=
  { s with
      final_score_sent := (dispatch_flag s.final_score_sent env.final_score_success).1,
      three_stars_sent := (dispatch_flag s.three_stars_sent env.three_stars_success).1 }

/-- The dispatch calls the Final branch performs, in source order:
    final.final_score, final.three_stars, thirdparty.nst_linetool. -/
def final_dispatched (env : IterEnv) (s : FinalSocials) :
    List (NotifKind × DispatchOutcome) :=
  [(NotifKind.finalScore, (dispatch_flag s.final_score_sent env.final_score_success).2),
   (NotifKind.threeStars, (dispatch_flag s.three_stars_sent env.three_stars_success).2),
   (NotifKind.nstLinetool,
     if env.nst_success then DispatchOutcome.Sent else DispatchOutcome.Failed)]

/-- The Final branch of start_game_loop (app.py lines 85-110): fetch with no
    exception handler (a feed failure propagates), update the Game, perform
    the three end-of-game dispatch calls, then — only after dispatching —
    check `all_social_sent or retries_exeeded`; when the check holds the loop
    exits via end_game_loop, otherwise the retry counter is incremented and
    the loop sleeps for the final interval. -/
def final_iteration (config : Config) (env : IterEnv) (game : GameData) :
    StepResult :=
  match env.fetch with
  | Except.error e => StepResult.crash e.toPyErr
  | Except.ok snap =>
      if (final_socials_after env (game.update_game snap).final_socials).all_social_sent
          || (final_socials_after env (game.update_game snap).final_socials).retries_exeeded then
        StepResult.exitLoop
          { game.update_game snap with
              final_socials := final_socials_after env (game.update_game snap).final_socials }
          (final_dispatched env (game.update_game snap).final_socials)
      else
        StepResult.next
          { game.update_game snap with
              final_socials :=
                { final_socials_after env (game.update_game snap).final_socials with
                    retry_count :=
                      (final_socials_after env (game.update_game snap).final_socials).retry_count
                        + 1 } }
          config.final_sleep_time
          (final_dispatched env (game.update_game snap).final_socials)

/-- One execution of the start_game_loop body (app.py lines 43-116): classify
    the stored phase tag and run the matching branch; any unrecognized tag
    falls to the warning branch, which sleeps for the live interval without
    dispatching or changing state. -/
def start_game_loop_iter (config : Config) (env : IterEnv) (game : GameData) :
    StepResult :=
  match GameState.ofTag game.game_state with
  | GameState.PREVIEW => preview_iteration config env game
  | GameState.LIVE => live_iteration config env game
  | GameState.FINAL => final_iteration config env game
  | GameState.UNKNOWN => StepResult.next game config.live_sleep_time []

/-- Runs the loop body once per environment entry, threading the Game state,
    and stops at the first exit or crash.  The returned list is the observable
    trace of loop iterations. -/
def start_game_loop (config : Config) : GameData → List IterEnv → List StepResult
  | _, [] => []
  | game, env :: envs =>
      match start_game_loop_iter config env game with
      | StepResult.next g s d =>
          StepResult.next g s d :: start_game_loop config g envs
      | StepResult.exitLoop g d => [StepResult.exitLoop g d]
      | StepResult.crash err => [StepResult.crash err]

/-- The dispatch calls recorded in one step of the trace. -/
def stepDispatched : StepResult → List (NotifKind × DispatchOutcome)
  | StepResult.next _ _ d => d
  | StepResult.exitLoop _ d => d
  | StepResult.crash _ => []

/-- True of a dispatch-record entry for the core pregame notification. -/
def isCoreAttempt (p : NotifKind × DispatchOutcome) : Bool :=
  p.1 == NotifKind.corePreview

/-- True of a dispatch-record entry that successfully emitted the core
    pregame notification. -/
def isCoreSent (p : NotifKind × DispatchOutcome) : Bool :=
  p.1 == NotifKind.corePreview && p.2 == DispatchOutcome.Sent

/-- How many core-preview dispatch calls one step performed. -/
def coreAttempts (r : StepResult) : Nat :=
  (stepDispatched r).countP isCoreAttempt

/-- How many successful core-preview emissions one step performed. -/
def coreSent (r : StepResult) : Nat :=
  (stepDispatched r).countP isCoreSent

/-- Total successful core-preview emissions over a trace. -/
def traceCoreSent (rs : List StepResult) : Nat :=
  (rs.map coreSent).sum

/-- True when a trace ends by exiting the loop through end_game_loop. -/
def endsExit (rs : List StepResult) : Bool :=
  match rs.getLast? with
  | Option.some (StepResult.exitLoop _ _) => true
  | _ => false

/-- The retry counter of the Game state recorded at each trace step. -/
def retryCounts (rs : List StepResult) : List (Option Nat) :=
  rs.map (fun r =>
    match r with
    | StepResult.next g _ _ => Option.some g.final_socials.retry_count
    | StepResult.exitLoop g _ => Option.some g.final_socials.retry_count
    | StepResult.crash _ => Option.none)

/- ------------------------------------------------------------------ -/
/- Exit codes (app.py run and end_game_loop)                          -/
/- ------------------------------------------------------------------ -/

/-- Modelled from Python semantics: sys.exit with no argument (None) exits
    the process with status code 0; an integer argument is used directly. -/
def sys_exit_code : Option Int → Int
  | Option.none => 0
  | Option.some c => c

/-- end_game_loop (app.py lines 119-136) logs the final score and calls
    sys.exit() with no argument. -/
def end_game_loop (_g : GameData) : Int := sys_exit_code Option.none

/-- run (app.py line 183) calls sys.exit() with no argument when no game is
    scheduled for the requested date. -/
def run_no_game_exit : Int := sys_exit_code Option.none

/-- Every sys.exit call site in app.py, with the argument passed there:
    line 136 (end_game_loop) and line 183 (run), both bare sys.exit(). -/
def exit_call_sites : List (Option Int) := [Option.none, Option.none]

/- ------------------------------------------------------------------ -/
/- Concrete fixtures used by witnesses and counterexamples            -/
/- ------------------------------------------------------------------ -/

/-- A concrete configuration of sleep intervals. -/
def cfg0 : Config :=
  { pregame_sleep_time := 30, live_sleep_time := 60, final_sleep_time := 120 }

/-- A feed document reporting the game as Final. -/
def snapFinal : Snapshot :=
  { game_state := "Final", game_time_countdown := 0, latest_event_idx := 0 }

/-- A feed document reporting the game as Live. -/
def snapLive : Snapshot :=
  { game_state := "Live", game_time_countdown := 0, latest_event_idx := 3 }

/-- An iteration in which the feed reader fails with FeedUnavailable. -/
def envFetchFail : IterEnv :=
  { fetch := Except.error FeedError.FeedUnavailable, live_raises := false,
    preview_core_success := false, preview_others_sleep := 10,
    supplemental_outcome := DispatchOutcome.Skipped,
    final_score_success := false, three_stars_success := false,
    nst_success := false }

/-- An iteration in which the fetch succeeds with a Final snapshot but every
    dispatcher publish attempt fails. -/
def envFinalFail : IterEnv :=
  { fetch := Except.ok snapFinal, live_raises := false,
    preview_core_success := false, preview_others_sleep := 10,
    supplemental_outcome := DispatchOutcome.Skipped,
    final_score_success := false, three_stars_success := false,
    nst_success := false }

/-- An iteration in which the fetch succeeds with a Live snapshot but
    live.live_loop raises an exception. -/
def envLiveRaise : IterEnv :=
  { fetch := Except.ok snapLive, live_raises := true,
    preview_core_success := false, preview_others_sleep := 10,
    supplemental_outcome := DispatchOutcome.Skipped,
    final_score_success := false, three_stars_success := false,
    nst_success := false }

/-- A fresh, empty Final-phase socials ledger with max retries 5. -/
def socials0 : FinalSocials :=
  { final_score_sent := false, three_stars_sent := false,
    retry_count := 0, retry_max := 5 }

/-- A Final-phase game at the start of the wrap-up, nothing sent yet. -/
def gameFinal0 : GameData :=
  { game_state := "Final", game_time_countdown := 0, pregametweets_core := true,
    last_event_idx := 0, final_socials := socials0 }

/-- A Final-phase game whose retry counter has already reached the maximum,
    with nothing sent. -/
def gameFinalExhausted : GameData :=
  { game_state := "Final", game_time_countdown := 0, pregametweets_core := true,
    last_event_idx := 0,
    final_socials :=
      { final_score_sent := false, three_stars_sent := false,
        retry_count := 5, retry_max := 5 } }

/-- A Live-phase game mid-stream. -/
def gameLive0 : GameData :=
  { game_state := "Live", game_time_countdown := 0, pregametweets_core := true,
    last_event_idx := 2, final_socials := socials0 }

/-- A Preview-phase game whose core pregame notification is already sent. -/
def gamePreviewDone : GameData :=
  { game_state := "Preview", game_time_countdown := 3600,
    pregametweets_core := true, last_event_idx := 0, final_socials := socials0 }

/-- A game whose stored phase tag is one the classifier does not recognize. -/
def gameWeird : GameData :=
  { game_state := "Postponed", game_time_countdown := 0,
    pregametweets_core := true, last_event_idx := 0, final_socials := socials0 }

/-- The dispatch-call count of each step of a trace. -/
def dispatchCounts (rs : List StepResult) : List Nat :=
  rs.map (fun r => (stepDispatched r).length)

/- ------------------------------------------------------------------ -/
/- Helper lemmas                                                      -/
/- ------------------------------------------------------------------ -/

theorem iter_preview (c : Config) (e : IterEnv) (g : GameData)
    (h : GameState.ofTag g.game_state = GameState.PREVIEW) :
    start_game_loop_iter c e g = preview_iteration c e g := by
  unfold start_game_loop_iter
  rw [h]

theorem iter_live (c : Config) (e : IterEnv) (g : GameData)
    (h : GameState.ofTag g.game_state = GameState.LIVE) :
    start_game_loop_iter c e g = live_iteration c e g := by
  unfold start_game_loop_iter
  rw [h]

theorem iter_final (c : Config) (e : IterEnv) (g : GameData)
    (h : GameState.ofTag g.game_state = GameState.FINAL) :
    start_game_loop_iter c e g = final_iteration c e g := by
  unfold start_game_loop_iter
  rw [h]

theorem iter_unknown (c : Config) (e : IterEnv) (g : GameData)
    (h : GameState.ofTag g.game_state = GameState.UNKNOWN) :
    start_game_loop_iter c e g = StepResult.next g c.live_sleep_time [] := by
  unfold start_game_loop_iter
  rw [h]

theorem ofTag_cases (tag : String) :
    GameState.ofTag tag = GameState.PREVIEW ∨ GameState.ofTag tag = GameState.LIVE
      ∨ GameState.ofTag tag = GameState.FINAL
      ∨ GameState.ofTag tag = GameState.UNKNOWN := by
  unfold GameState.ofTag
  split_ifs <;> simp

theorem ofTag_unknown (tag : String) (h1 : tag ≠ "Preview") (h2 : tag ≠ "Live")
    (h3 : tag ≠ "Final") : GameState.ofTag tag = GameState.UNKNOWN := by
  unfold GameState.ofTag
  rw [if_neg h1, if_neg h2, if_neg h3]

theorem live_dispatches_no_core (g : GameData) (snap : Snapshot) :
    (live_loop_dispatches g snap).countP isCoreAttempt = 0 := by
  unfold live_loop_dispatches
  rw [List.countP_map]
  simp [Function.comp, isCoreAttempt]

theorem coreSent_le_coreAttempts (r : StepResult) :
    coreSent r ≤ coreAttempts r := by
  unfold coreSent coreAttempts
  refine List.countP_mono_left (fun x _ hx => ?_)
  unfold isCoreSent at hx
  unfold isCoreAttempt
  exact (Bool.and_eq_true _ _ ▸ hx).1

theorem live_dispatches_no_coreSent (g : GameData) (snap : Snapshot) :
    (live_loop_dispatches g snap).countP isCoreSent = 0 := by
  unfold live_loop_dispatches
  rw [List.countP_map]
  simp [Function.comp, isCoreSent]

theorem step_coreAttempts_of_flag (c : Config) (e : IterEnv) (g : GameData)
    (h : g.pregametweets_core = true) :
    coreAttempts (start_game_loop_iter c e g) = 0 := by
  rcases ofTag_cases g.game_state with hcl | hcl | hcl | hcl
  · rw [iter_preview c e g hcl]
    unfold preview_iteration
    by_cases hcd : 0 < g.game_time_countdown
    · rw [if_pos hcd, if_neg (by simp [h])]
      simp [coreAttempts, stepDispatched, isCoreAttempt, List.countP_cons]
    · rw [if_neg hcd]
      cases hf : e.fetch with
      | error err => simp [coreAttempts, stepDispatched]
      | ok snap => simp [coreAttempts, stepDispatched]
  · rw [iter_live c e g hcl]
    unfold live_iteration
    cases hf : e.fetch with
    | error err => simp [coreAttempts, stepDispatched]
    | ok snap =>
        dsimp only
        by_cases hr : e.live_raises = true
        · rw [if_pos hr]
          simp [coreAttempts, stepDispatched]
        · rw [if_neg hr]
          simpa [coreAttempts, stepDispatched] using live_dispatches_no_core g snap
  · rw [iter_final c e g hcl]
    unfold final_iteration
    cases hf : e.fetch with
    | error err => simp [coreAttempts, stepDispatched]
    | ok snap =>
        dsimp only
        split
        · simp [coreAttempts, stepDispatched, final_dispatched, isCoreAttempt,
            List.countP_cons]
        · simp [coreAttempts, stepDispatched, final_dispatched, isCoreAttempt,
            List.countP_cons]
  · rw [iter_unknown c e g hcl]
    simp [coreAttempts, stepDispatched]

theorem step_coreSent_le_one (c : Config) (e : IterEnv) (g : GameData) :
    coreSent (start_game_loop_iter c e g) ≤ 1 := by
  rcases ofTag_cases g.game_state with hcl | hcl | hcl | hcl
  · rw [iter_preview c e g hcl]
    unfold preview_iteration
    by_cases hcd : 0 < g.game_time_countdown
    · rw [if_pos hcd]
      by_cases hflag : g.pregametweets_core = false
      · rw [if_pos hflag]
        simp only [coreSent, stepDispatched]
        rw [List.countP_cons, List.countP_cons, List.countP_nil]
        simp [isCoreSent]
        split <;> simp
      · rw [if_neg hflag]
        simp [coreSent, stepDispatched, isCoreSent, List.countP_cons]
    · rw [if_neg hcd]
      cases hf : e.fetch with
      | error err => simp [coreSent, stepDispatched]
      | ok snap => simp [coreSent, stepDispatched]
  · rw [iter_live c e g hcl]
    unfold live_iteration
    cases hf : e.fetch with
    | error err => simp [coreSent, stepDispatched]
    | ok snap =>
        dsimp only
        by_cases hr : e.live_raises = true
        · rw [if_pos hr]
          simp [coreSent, stepDispatched]
        · rw [if_neg hr]
          have h0 := live_dispatches_no_coreSent g snap
          simp [coreSent, stepDispatched, h0]
  · rw [iter_final c e g hcl]
    unfold final_iteration
    cases hf : e.fetch with
    | error err => simp [coreSent, stepDispatched]
    | ok snap =>
        dsimp only
        split
        · simp [coreSent, stepDispatched, final_dispatched, isCoreSent,
            List.countP_cons]
        · simp [coreSent, stepDispatched, final_dispatched, isCoreSent,
            List.countP_cons]
  · rw [iter_unknown c e g hcl]
    simp [coreSent, stepDispatched]

theorem step_flag_monotone (c : Config) (e : IterEnv) (g g' : GameData)
    (s : Nat) (d : List (NotifKind × DispatchOutcome))
    (hstep : start_game_loop_iter c e g = StepResult.next g' s d)
    (h : g.pregametweets_core = true) : g'.pregametweets_core = true := by
  rcases ofTag_cases g.game_state with hcl | hcl | hcl | hcl
  · rw [iter_preview c e g hcl] at hstep
    unfold preview_iteration at hstep
    by_cases hcd : 0 < g.game_time_countdown
    · rw [if_pos hcd, if_neg (by simp [h])] at hstep
      injection hstep with h1 _ _
      rw [← h1]
      exact h
    · rw [if_neg hcd] at hstep
      cases hf : e.fetch with
      | error err => rw [hf] at hstep; cases hstep
      | ok snap =>
          rw [hf] at hstep
          injection hstep with h1 _ _
          rw [← h1]
          simpa [GameData.update_game] using h
  · rw [iter_live c e g hcl] at hstep
    unfold live_iteration at hstep
    cases hf : e.fetch with
    | error err =>
        rw [hf] at hstep
        injection hstep with h1 _ _
        rw [← h1]
        exact h
    | ok snap =>
        rw [hf] at hstep
        dsimp only at hstep
        by_cases hr : e.live_raises = true
        · rw [if_pos hr] at hstep
          injection hstep with h1 _ _
          rw [← h1]
          exact h
        · rw [if_neg hr] at hstep
          injection hstep with h1 _ _
          rw [← h1]
          simpa [GameData.update_game] using h
  · rw [iter_final c e g hcl] at hstep
    unfold final_iteration at hstep
    cases hf : e.fetch with
    | error err => rw [hf] at hstep; cases hstep
    | ok snap =>
        rw [hf] at hstep
        dsimp only at hstep
        split at hstep
        · cases hstep
        · injection hstep with h1 _ _
          rw [← h1]
          simpa [GameData.update_game] using h
  · rw [iter_unknown c e g hcl] at hstep
    injection hstep with h1 _ _
    rw [← h1]
    exact h

theorem step_sent_sets_flag (c : Config) (e : IterEnv) (g g' : GameData)
    (s : Nat) (d : List (NotifKind × DispatchOutcome))
    (hstep : start_game_loop_iter c e g = StepResult.next g' s d)
    (hs : 1 ≤ coreSent (StepResult.next g' s d)) :
    g'.pregametweets_core = true := by
  rcases ofTag_cases g.game_state with hcl | hcl | hcl | hcl
  · rw [iter_preview c e g hcl] at hstep
    unfold preview_iteration at hstep
    by_cases hcd : 0 < g.game_time_countdown
    · rw [if_pos hcd] at hstep
      by_cases hflag : g.pregametweets_core = false
      · rw [if_pos hflag] at hstep
        rw [hflag] at hstep
        by_cases hsucc : e.preview_core_success = true
        · rw [hsucc] at hstep
          injection hstep with h1 _ _
          rw [← h1]
          simp [dispatch_flag]
        · rw [Bool.not_eq_true] at hsucc
          rw [hsucc] at hstep
          injection hstep with h1 h2 h3
          rw [← h3] at hs
          simp [coreSent, stepDispatched, isCoreSent, List.countP_cons,
            dispatch_flag] at hs
      · rw [if_neg hflag] at hstep
        injection hstep with h1 h2 h3
        rw [← h3] at hs
        simp [coreSent, stepDispatched, isCoreSent, List.countP_cons] at hs
    · rw [if_neg hcd] at hstep
      cases hf : e.fetch with
      | error err => rw [hf] at hstep; cases hstep
      | ok snap =>
          rw [hf] at hstep
          injection hstep with h1 h2 h3
          rw [← h3] at hs
          simp [coreSent, stepDispatched] at hs
  · rw [iter_live c e g hcl] at hstep
    unfold live_iteration at hstep
    cases hf : e.fetch with
    | error err =>
        rw [hf] at hstep
        injection hstep with h1 h2 h3
        rw [← h3] at hs
        simp [coreSent, stepDispatched] at hs
    | ok snap =>
        rw [hf] at hstep
        dsimp only at hstep
        by_cases hr : e.live_raises = true
        · rw [if_pos hr] at hstep
          injection hstep with h1 h2 h3
          rw [← h3] at hs
          simp [coreSent, stepDispatched] at hs
        · rw [if_neg hr] at hstep
          injection hstep with h1 h2 h3
          rw [← h3] at hs
          have h0 := live_dispatches_no_coreSent g snap
          simp [coreSent, stepDispatched, h0] at hs
  · rw [iter_final c e g hcl] at hstep
    unfold final_iteration at hstep
    cases hf : e.fetch with
    | error err => rw [hf] at hstep; cases hstep
    | ok snap =>
        rw [hf] at hstep
        dsimp only at hstep
        split at hstep
        · cases hstep
        · injection hstep with h1 h2 h3
          rw [← h3] at hs
          simp [coreSent, stepDispatched, final_dispatched, isCoreSent,
            List.countP_cons] at hs
  · rw [iter_unknown c e g hcl] at hstep
    injection hstep with h1 h2 h3
    rw [← h3] at hs
    simp [coreSent, stepDispatched] at hs

theorem traceCoreSent_nil : traceCoreSent [] = 0 := rfl

theorem traceCoreSent_cons (r : StepResult) (rs : List StepResult) :
    traceCoreSent (r :: rs) = coreSent r + traceCoreSent rs := by
  simp [traceCoreSent]

theorem step_coreSent_of_flag (c : Config) (e : IterEnv) (g : GameData)
    (h : g.pregametweets_core = true) :
    coreSent (start_game_loop_iter c e g) = 0 :=
  Nat.le_antisymm
    (Nat.le_trans (coreSent_le_coreAttempts _)
      (Nat.le_of_eq (step_coreAttempts_of_flag c e g h)))
    (Nat.zero_le _)

theorem trace_coreSent_of_flag (c : Config) :
    ∀ (envs : List IterEnv) (g : GameData), g.pregametweets_core = true →
      traceCoreSent (start_game_loop c g envs) = 0 := by
  intro envs
  induction envs with
  | nil => intro g h; rfl
  | cons e es ih =>
      intro g h
      unfold start_game_loop
      cases hr : start_game_loop_iter c e g with
      | next g' s d =>
          rw [traceCoreSent_cons]
          have h1 : coreSent (StepResult.next g' s d) = 0 := by
            rw [← hr]
            exact step_coreSent_of_flag c e g h
          rw [h1, ih g' (step_flag_monotone c e g g' s d hr h)]
      | exitLoop g' d =>
          rw [traceCoreSent_cons, traceCoreSent_nil]
          rw [← hr]
          simpa using step_coreSent_of_flag c e g h
      | crash err =>
          rw [traceCoreSent_cons, traceCoreSent_nil]
          rw [← hr]
          simpa using step_coreSent_of_flag c e g h

theorem trace_coreSent_le_one (c : Config) :
    ∀ (envs : List IterEnv) (g : GameData),
      traceCoreSent (start_game_loop c g envs) ≤ 1 := by
  intro envs
  induction envs with
  | nil => intro g; simp [traceCoreSent_nil, start_game_loop]
  | cons e es ih =>
      intro g
      unfold start_game_loop
      cases hr : start_game_loop_iter c e g with
      | next g' s d =>
          rw [traceCoreSent_cons]
          have hle : coreSent (StepResult.next g' s d) ≤ 1 := by
            rw [← hr]
            exact step_coreSent_le_one c e g
          rcases Nat.eq_zero_or_pos (coreSent (StepResult.next g' s d)) with h0 | h1
          · rw [h0]
            simpa using ih g'
          · have hflag : g'.pregametweets_core = true :=
              step_sent_sets_flag c e g g' s d hr h1
            have h2 : traceCoreSent (start_game_loop c g' es) = 0 :=
              trace_coreSent_of_flag c es g' hflag
            omega
      | exitLoop g' d =>
          rw [traceCoreSent_cons, traceCoreSent_nil]
          rw [← hr]
          simpa using step_coreSent_le_one c e g
      | crash err =>
          rw [traceCoreSent_cons, traceCoreSent_nil]
          rw [← hr]
          simpa using step_coreSent_le_one c e g

/- ------------------------------------------------------------------ -/
/- Claim theorems                                                     -/
/- ------------------------------------------------------------------ -/

/-- C1 counterexample: the claim says a FeedUnavailable or FeedMalformed
    fetch never crashes the loop in any phase, with the previous snapshot
    and phase kept and a retry scheduled.  In the Final phase the fetch
    (app.py line 90) has no exception handler, so at this concrete input the
    iteration ends in an uncaught FeedUnavailable exception instead of
    keeping the previous state and retrying. -/
theorem C1_counterexample :
    start_game_loop_iter cfg0 envFetchFail gameFinal0 =
      StepResult.crash PyErr.FeedUnavailableErr := by
  decide

/-- C1 amended: only the Live branch tolerates a failed fetch, leaving the
    previous snapshot and phase in effect and retrying after the live sleep
    interval; in the Preview-past-start branch (app.py line 60) and in the
    Final branch (app.py line 90) the fetch is unguarded, so the failure
    propagates out of the loop iteration. -/
theorem C1_amended_fetch_failure (c : Config) (e : IterEnv) (g : GameData)
    (err : FeedError) (hf : e.fetch = Except.error err) :
    (GameState.ofTag g.game_state = GameState.LIVE →
      start_game_loop_iter c e g = StepResult.next g c.live_sleep_time []) ∧
    (GameState.ofTag g.game_state = GameState.PREVIEW →
      g.game_time_countdown ≤ 0 →
      start_game_loop_iter c e g = StepResult.crash err.toPyErr) ∧
    (GameState.ofTag g.game_state = GameState.FINAL →
      start_game_loop_iter c e g = StepResult.crash err.toPyErr) := by
  refine ⟨?_, ?_, ?_⟩
  · intro hcl
    rw [iter_live c e g hcl]
    unfold live_iteration
    rw [hf]
  · intro hcl hcd
    rw [iter_preview c e g hcl]
    unfold preview_iteration
    rw [if_neg (by omega), hf]
  · intro hcl
    rw [iter_final c e g hcl]
    unfold final_iteration
    rw [hf]

/-- Witness for C1 amended at a concrete Live-phase game and a concrete
    FeedUnavailable failure. -/
theorem C1_witness :
    (GameState.ofTag gameLive0.game_state = GameState.LIVE →
      start_game_loop_iter cfg0 envFetchFail gameLive0 =
        StepResult.next gameLive0 cfg0.live_sleep_time []) ∧
    (GameState.ofTag gameLive0.game_state = GameState.PREVIEW →
      gameLive0.game_time_countdown ≤ 0 →
      start_game_loop_iter cfg0 envFetchFail gameLive0 =
        StepResult.crash FeedError.FeedUnavailable.toPyErr) ∧
    (GameState.ofTag gameLive0.game_state = GameState.FINAL →
      start_game_loop_iter cfg0 envFetchFail gameLive0 =
        StepResult.crash FeedError.FeedUnavailable.toPyErr) :=
  C1_amended_fetch_failure cfg0 envFetchFail gameLive0 FeedError.FeedUnavailable rfl

/-- C2: phase classification is total and never raises: every feed-reported
    tag classifies to one of the four phases; every unrecognized tag maps to
    UNKNOWN, and a loop iteration on a game carrying such a tag takes the
    warning branch (sleeping at the live interval) instead of raising. -/
theorem C2_phase_classification_total (tag : String) :
    (GameState.ofTag tag = GameState.PREVIEW ∨ GameState.ofTag tag = GameState.LIVE
      ∨ GameState.ofTag tag = GameState.FINAL
      ∨ GameState.ofTag tag = GameState.UNKNOWN) ∧
    (tag ≠ "Preview" → tag ≠ "Live" → tag ≠ "Final" →
      GameState.ofTag tag = GameState.UNKNOWN ∧
      ∀ (c : Config) (e : IterEnv) (g : GameData), g.game_state = tag →
        start_game_loop_iter c e g = StepResult.next g c.live_sleep_time []) := by
  constructor
  · exact ofTag_cases tag
  · intro h1 h2 h3
    have hu := ofTag_unknown tag h1 h2 h3
    refine ⟨hu, ?_⟩
    intro c e g hg
    exact iter_unknown c e g (by rw [hg]; exact hu)

/-- Witness for C2 at the concrete unrecognized tag "Postponed". -/
theorem C2_witness :
    GameState.ofTag "Postponed" = GameState.UNKNOWN ∧
    start_game_loop_iter cfg0 envFetchFail gameWeird =
      StepResult.next gameWeird cfg0.live_sleep_time [] :=
  ⟨((C2_phase_classification_total "Postponed").2 (by decide) (by decide)
      (by decide)).1,
   ((C2_phase_classification_total "Postponed").2 (by decide) (by decide)
      (by decide)).2 cfg0 envFetchFail gameWeird rfl⟩

/-- C3 counterexample: at this concrete input the condition to end the game
    holds on entry (retries have reached the maximum), yet the iteration
    still performs all three Final-phase dispatch calls — each attempting a
    publish, which fails — before exiting, contradicting the claim that the
    loop exits without performing the Final-phase dispatches in that
    iteration. -/
theorem C3_counterexample :
    start_game_loop_iter cfg0 envFinalFail gameFinalExhausted =
      StepResult.exitLoop gameFinalExhausted
        [(NotifKind.finalScore, DispatchOutcome.Failed),
         (NotifKind.threeStars, DispatchOutcome.Failed),
         (NotifKind.nstLinetool, DispatchOutcome.Failed)] := by
  decide

/-- C3 amended: a Final-phase iteration whose post-dispatch ledger is fully
    sent or whose retry counter has reached the maximum exits the loop
    (reaching Terminated) without incrementing the retry counter and without
    sleeping, but only after performing the three Final-phase dispatch
    calls; and the loop exit is reached only from the Final phase. -/
theorem C3_amended_final_exit :
    (∀ (c : Config) (e : IterEnv) (g g' : GameData)
        (d : List (NotifKind × DispatchOutcome)),
      start_game_loop_iter c e g = StepResult.exitLoop g' d →
      GameState.ofTag g.game_state = GameState.FINAL ∧
      d ≠ [] ∧
      (g'.final_socials.all_social_sent || g'.final_socials.retries_exeeded) = true ∧
      g'.final_socials.retry_count = g.final_socials.retry_count) ∧
    (∀ (c : Config) (e : IterEnv) (g : GameData) (snap : Snapshot),
      GameState.ofTag g.game_state = GameState.FINAL →
      e.fetch = Except.ok snap →
      ((final_socials_after e (g.update_game snap).final_socials).all_social_sent
        || (final_socials_after e (g.update_game snap).final_socials).retries_exeeded)
          = true →
      start_game_loop_iter c e g =
        StepResult.exitLoop
          { g.update_game snap with
              final_socials := final_socials_after e (g.update_game snap).final_socials }
          (final_dispatched e (g.update_game snap).final_socials)) := by
  constructor
  · intro c e g g' d hstep
    rcases ofTag_cases g.game_state with hcl | hcl | hcl | hcl
    · exfalso
      rw [iter_preview c e g hcl] at hstep
      unfold preview_iteration at hstep
      by_cases hcd : 0 < g.game_time_countdown
      · rw [if_pos hcd] at hstep
        by_cases hflag : g.pregametweets_core = false
        · rw [if_pos hflag] at hstep
          cases hstep
        · rw [if_neg hflag] at hstep
          cases hstep
      · rw [if_neg hcd] at hstep
        cases hf : e.fetch with
        | error err => rw [hf] at hstep; cases hstep
        | ok snap => rw [hf] at hstep; cases hstep
    · exfalso
      rw [iter_live c e g hcl] at hstep
      unfold live_iteration at hstep
      cases hf : e.fetch with
      | error err => rw [hf] at hstep; cases hstep
      | ok snap =>
          rw [hf] at hstep
          dsimp only at hstep
          by_cases hr : e.live_raises = true
          · rw [if_pos hr] at hstep
            cases hstep
          · rw [if_neg hr] at hstep
            cases hstep
    · rw [iter_final c e g hcl] at hstep
      unfold final_iteration at hstep
      cases hf : e.fetch with
      | error err => rw [hf] at hstep; cases hstep
      | ok snap =>
          rw [hf] at hstep
          dsimp only at hstep
          split at hstep
          · rename_i hcond
            injection hstep with h1 h2
            subst h1
            refine ⟨hcl, ?_, ?_, ?_⟩
            · rw [← h2]
              simp [final_dispatched]
            · exact hcond
            · rfl
          · cases hstep
    · exfalso
      rw [iter_unknown c e g hcl] at hstep
      cases hstep
  · intro c e g snap hcl hf hcond
    rw [iter_final c e g hcl]
    unfold final_iteration
    rw [hf]
    dsimp only
    rw [if_pos hcond]

/-- Witness for C3 amended: the backward direction applied at a concrete
    retries-exhausted Final-phase input. -/
theorem C3_witness :
    start_game_loop_iter cfg0 envFinalFail gameFinalExhausted =
      StepResult.exitLoop
        { gameFinalExhausted.update_game snapFinal with
            final_socials :=
              final_socials_after envFinalFail
                (gameFinalExhausted.update_game snapFinal).final_socials }
        (final_dispatched envFinalFail
          (gameFinalExhausted.update_game snapFinal).final_socials) :=
  C3_amended_final_exit.2 cfg0 envFinalFail gameFinalExhausted snapFinal
    (by decide) rfl (by decide)

/-- C4 counterexample: with max retries 5 and a dispatcher that fails on
    every attempt, the Final branch of the loop executes six times, not
    five: five full iterations that each increment the retry counter and
    sleep, then a sixth pass that still fetches and performs the three
    dispatch calls before exiting.  The claim's "exactly 5 Final-phase
    iterations then transitions to Terminated" undercounts the terminating
    pass, which performs dispatches of its own. -/
theorem C4_counterexample :
    (start_game_loop cfg0 gameFinal0 (List.replicate 10 envFinalFail)).length = 6 ∧
    endsExit (start_game_loop cfg0 gameFinal0 (List.replicate 10 envFinalFail))
      = true := by
  decide

/-- C4 amended: with max retries 5 and an always-failing dispatcher, the
    loop performs exactly five complete Final-phase iterations, each
    incrementing the retry counter by exactly one (the recorded counters are
    1,2,3,4,5), and transitions to Terminated during the sixth execution of
    the Final branch, which performs the three dispatch calls but does not
    increment the counter. -/
theorem C4_amended_bounded_retry :
    retryCounts (start_game_loop cfg0 gameFinal0 (List.replicate 10 envFinalFail)) =
      [Option.some 1, Option.some 2, Option.some 3, Option.some 4,
       Option.some 5, Option.some 5] ∧
    dispatchCounts (start_game_loop cfg0 gameFinal0 (List.replicate 10 envFinalFail)) =
      [3, 3, 3, 3, 3, 3] ∧
    endsExit (start_game_loop cfg0 gameFinal0 (List.replicate 10 envFinalFail))
      = true := by
  decide

/-- C5: in a Live-phase iteration, a failing fetch or an exception raised
    by the live processing (live.live_loop) is caught at the loop boundary
    and treated as a no-op: the stored snapshot state and the last-processed
    event index are unchanged (game.update_game is not reached), no dispatch
    is recorded, and the loop resumes after the live sleep interval. -/
theorem C5_live_exception_noop (c : Config) (e : IterEnv) (g : GameData)
    (hLive : GameState.ofTag g.game_state = GameState.LIVE)
    (hfail : (∃ err, e.fetch = Except.error err) ∨ e.live_raises = true) :
    start_game_loop_iter c e g = StepResult.next g c.live_sleep_time [] := by
  rw [iter_live c e g hLive]
  unfold live_iteration
  rcases hfail with ⟨err, herr⟩ | hraise
  · rw [herr]
  · cases hf : e.fetch with
    | error err => rfl
    | ok snap =>
        dsimp only
        rw [if_pos hraise]

/-- Witness for C5 at a concrete Live-phase game whose live processing
    raises. -/
theorem C5_witness :
    start_game_loop_iter cfg0 envLiveRaise gameLive0 =
      StepResult.next gameLive0 cfg0.live_sleep_time [] :=
  C5_live_exception_noop cfg0 envLiveRaise gameLive0 (by decide) (Or.inr rfl)

/-- C6: with the countdown positive, the core pregame notification is
    generated only when the ledger flag pregametweets["core"] is false — a
    true flag suppresses the dispatch call entirely, in every branch — and
    since a successful emission sets the flag and the flag is never reset,
    at most one successful core-preview emission occurs over any run of the
    loop. -/
theorem C6_core_preview_at_most_once (c : Config) :
    (∀ (e : IterEnv) (g : GameData), g.pregametweets_core = true →
      coreAttempts (start_game_loop_iter c e g) = 0) ∧
    (∀ (g : GameData) (envs : List IterEnv),
      traceCoreSent (start_game_loop c g envs) ≤ 1) := by
  constructor
  · intro e g h
    exact step_coreAttempts_of_flag c e g h
  · intro g envs
    exact trace_coreSent_le_one c envs g

/-- Witness for C6 at a concrete Preview-phase game whose core flag is
    already set. -/
theorem C6_witness :
    coreAttempts (start_game_loop_iter cfg0 envFetchFail gamePreviewDone) = 0 ∧
    traceCoreSent (start_game_loop cfg0 gamePreviewDone [envFetchFail]) ≤ 1 :=
  ⟨(C6_core_preview_at_most_once cfg0).1 envFetchFail gamePreviewDone rfl,
   (C6_core_preview_at_most_once cfg0).2 gamePreviewDone [envFetchFail]⟩

/-- C7: an iteration whose phase tag classifies to Unknown performs zero
    dispatches, leaves the game state — ledger, snapshot fields and
    last-processed index — unchanged, and only sleeps for the live poll
    interval before re-checking. -/
theorem C7_unknown_iteration_noop (c : Config) (e : IterEnv) (g : GameData)
    (h : GameState.ofTag g.game_state = GameState.UNKNOWN) :
    start_game_loop_iter c e g = StepResult.next g c.live_sleep_time [] :=
  iter_unknown c e g h

/-- Witness for C7 at the concrete unrecognized tag "Postponed". -/
theorem C7_witness :
    start_game_loop_iter cfg0 envLiveRaise gameWeird =
      StepResult.next gameWeird cfg0.live_sleep_time [] :=
  C7_unknown_iteration_noop cfg0 envLiveRaise gameWeird (by decide)

/-- C8: both graceful completion paths exit with code 0 — the no-game-today
    path in run (bare sys.exit at app.py line 183) and the Terminated path
    through end_game_loop (bare sys.exit at app.py line 136) — and these are
    the only exit call sites the core defines. -/
theorem C8_exit_codes :
    (∀ g : GameData, end_game_loop g = 0) ∧
    run_no_game_exit = 0 ∧
    exit_call_sites.all (fun a => sys_exit_code a == 0) = true := by
  refine ⟨fun g => rfl, rfl, by decide⟩

/-- C9: a record containing "wins" and "losses" but no "ot" key sets ot to
    None and then raises TypeError computing points = (2 * wins) + ot, so
    Team construction succeeds only for records that include an "ot"
    entry, despite the KeyError handler that appears to tolerate its
    absence. -/
theorem C9_missing_ot_type_error (record : List (String × Int)) :
    (∀ w l : Int, dict_find record "wins" = Option.some w →
      dict_find record "losses" = Option.some l →
      dict_find record "ot" = Option.none →
      team_init_record record = Except.error PyErr.TypeError) ∧
    (∀ t : TeamRecordStats, team_init_record record = Except.ok t →
      ∃ o : Int, dict_find record "ot" = Option.some o) := by
  constructor
  · intro w l hw hl hot
    unfold team_init_record py_getitem
    rw [hw, hl, hot]
    rfl
  · intro t ht
    cases ho : dict_find record "ot" with
    | some o => exact ⟨o, rfl⟩
    | none =>
        exfalso
        unfold team_init_record py_getitem at ht
        cases hw : dict_find record "wins" with
        | none => rw [hw] at ht; cases ht
        | some w =>
            rw [hw] at ht
            cases hl : dict_find record "losses" with
            | none => rw [hl] at ht; cases ht
            | some l =>
                rw [hl, ho] at ht
                cases ht

/-- Witness for C9 at a concrete record with wins and losses but no ot. -/
theorem C9_witness :
    team_init_record [("wins", 10), ("losses", 5)] =
      Except.error PyErr.TypeError :=
  (C9_missing_ot_type_error [("wins", 10), ("losses", 5)]).1 10 5
    (by decide) (by decide) (by decide)

/-- C10: goalie_pulled_setter stores the new value in the goalie_pulled
    slot, returns True exactly when the new value is True and the previous
    value was False, and modifies no other field of the team. -/
theorem C10_goalie_pulled_setter (t : TeamLive) (v : PyVal) :
    (goalie_pulled_setter t v).1.goalie_pulled = v ∧
    ((goalie_pulled_setter t v).2 = true ↔
      (v = PyVal.bool true ∧ t.goalie_pulled = PyVal.bool false)) ∧
    (goalie_pulled_setter t v).1.skaters = t.skaters ∧
    (goalie_pulled_setter t v).1.score = t.score ∧
    (goalie_pulled_setter t v).1.shots = t.shots ∧
    (goalie_pulled_setter t v).1.power_play = t.power_play ∧
    (goalie_pulled_setter t v).1.preferred = t.preferred := by
  unfold goalie_pulled_setter
  refine ⟨rfl, ?_, rfl, rfl, rfl, rfl, rfl⟩
  simp [Bool.and_eq_true, beq_iff_eq]
